import Mathlib

/-!
Verification of the DIBS image-processing pipeline (`dibsiiif.py`, `dibsprep.py`).

The Python scripts are embedded shallowly: every Python string operation the
scripts use (`split`, `strip`, slicing, `find`, `in`, `sort`, `Path.stem`,
`str.isnumeric`) is reproduced as a structurally recursive Lean function over
`List Char`, and each script's `main` becomes a pure function from an
environment record (the outcomes of the external world: directory listing,
catalog record, conversion tool, object storage) to a run outcome.
-/

namespace Dibs

/-! ## Python string primitives -/

/-- Characters removed by the scripts' `strip(" /:;,.")` calls. -/
def stripSet (c : Char) : Bool :=
  c = ' ' || c = '/' || c = ':' || c = ';' || c = ',' || c = '.'

/-- Python `s.strip(" /:;,.")`: drop those characters from both ends. -/
def pyStrip (s : String) : String :=
  String.mk (((s.data.dropWhile stripSet).reverse.dropWhile stripSet).reverse)

/-- Python `s.split(sep)` for a one-character separator: split at every
occurrence, keeping empty pieces (so `"".split` gives one empty piece). -/
def splitChar (c : Char) : List Char → List (List Char)
  | [] => [[]]
  | x :: xs =>
    if x = c then [] :: splitChar c xs
    else
      match splitChar c xs with
      | [] => [[x]]
      | g :: gs => (x :: g) :: gs

/-- Python `name.split("_")`. -/
def splitUnder (s : String) : List String := (splitChar '_' s.data).map String.mk

/-- Python `name.split(".")[0]`: the part of the name before the first dot. -/
def firstDotPart (s : String) : String := String.mk ((splitChar '.' s.data).headD [])

/-- `leadsWith pat l` is true when `pat` is an initial run of `l`. -/
def leadsWith : List Char → List Char → Bool
  | [], _ => true
  | _ :: _, [] => false
  | a :: as, b :: bs => a == b && leadsWith as bs

/-- `tailIs suf l` is true when `l` ends with the characters `suf`. -/
def tailIs (suf l : List Char) : Bool := leadsWith suf.reverse l.reverse

/-- Python `name.endswith((".tif", ".tiff"))`. -/
def endsTiff (name : String) : Bool :=
  tailIs ".tif".data name.data || tailIs ".tiff".data name.data

/-- The maximal runs of Unicode decimal-digit characters (general category
Nd, Unicode 14.0.0, the data CPython 3.11 ships): pairs of (first codepoint,
run length).  Within each run the digit value cycles 0 to 9 from the run
start.  These are exactly the characters `int` accepts. -/
def ndRuns : List (Nat × Nat) :=
  [   (48, 10), (1632, 10), (1776, 10), (1984, 10), (2406, 10), (2534, 10),
   (2662, 10), (2790, 10), (2918, 10), (3046, 10), (3174, 10), (3302, 10),
   (3430, 10), (3558, 10), (3664, 10), (3792, 10), (3872, 10), (4160, 10),
   (4240, 10), (6112, 10), (6160, 10), (6470, 10), (6608, 10), (6784, 10),
   (6800, 10), (6992, 10), (7088, 10), (7232, 10), (7248, 10), (42528, 10),
   (43216, 10), (43264, 10), (43472, 10), (43504, 10), (43600, 10), (44016, 10),
   (65296, 10), (66720, 10), (68912, 10), (69734, 10), (69872, 10), (69942, 10),
   (70096, 10), (70384, 10), (70736, 10), (70864, 10), (71248, 10), (71360, 10),
   (71472, 10), (71904, 10), (72016, 10), (72784, 10), (73040, 10), (73120, 10),
   (92768, 10), (92864, 10), (93008, 10), (120782, 50), (123200, 10), (123632, 10),
   (125264, 10), (130032, 10)]

/-- A Unicode decimal digit (category Nd). -/
def isDecDigitChar (c : Char) : Bool :=
  ndRuns.any (fun r => r.1 ≤ c.toNat && c.toNat < r.1 + r.2)

/-- The decimal value of a Unicode decimal digit (0 for non-digits). -/
def decDigitVal (c : Char) : Nat :=
  match ndRuns.find? (fun r => r.1 ≤ c.toNat && c.toNat < r.1 + r.2) with
  | some r => (c.toNat - r.1) % 10
  | none => 0

/-- The codepoint ranges (inclusive) that Python `str.isnumeric` counts as
numeric without being decimal digits (Numeric_Type Digit or Numeric, e.g.
vulgar fractions and superscripts; Unicode 14.0.0).  `int` rejects these. -/
def numericOtherRuns : List (Nat × Nat) :=
  [   (178, 179), (185, 185), (188, 190), (2548, 2553), (2930, 2935), (3056, 3058),
   (3192, 3198), (3416, 3422), (3440, 3448), (3882, 3891), (4969, 4988), (5870, 5872),
   (6128, 6137), (6618, 6618), (8304, 8304), (8308, 8313), (8320, 8329), (8528, 8578),
   (8581, 8585), (9312, 9371), (9450, 9471), (10102, 10131), (11517, 11517), (12295, 12295),
   (12321, 12329), (12344, 12346), (12690, 12693), (12832, 12841), (12872, 12879), (12881, 12895),
   (12928, 12937), (12977, 12991), (13317, 13317), (13443, 13443), (14378, 14378), (15181, 15181),
   (19968, 19968), (19971, 19971), (19975, 19975), (19977, 19977), (20061, 20061), (20108, 20108),
   (20116, 20116), (20118, 20118), (20159, 20160), (20191, 20191), (20200, 20200), (20237, 20237),
   (20336, 20336), (20740, 20740), (20806, 20806), (20841, 20841), (20843, 20843), (20845, 20845),
   (21313, 21313), (21315, 21317), (21324, 21324), (21441, 21444), (22235, 22235), (22769, 22769),
   (22777, 22777), (24186, 24186), (24318, 24319), (24332, 24334), (24336, 24336), (25342, 25342),
   (25420, 25420), (26578, 26578), (28422, 28422), (29590, 29590), (30334, 30334), (32902, 32902),
   (33836, 33836), (36014, 36014), (36019, 36019), (36144, 36144), (38433, 38433), (38470, 38470),
   (38476, 38476), (38520, 38520), (38646, 38646), (42726, 42735), (43056, 43061), (63851, 63851),
   (63859, 63859), (63864, 63864), (63922, 63922), (63953, 63953), (63955, 63955), (63997, 63997),
   (65799, 65843), (65856, 65912), (65930, 65931), (66273, 66299), (66336, 66339), (66369, 66369),
   (66378, 66378), (66513, 66517), (67672, 67679), (67705, 67711), (67751, 67759), (67835, 67839),
   (67862, 67867), (68028, 68029), (68032, 68047), (68050, 68095), (68160, 68168), (68221, 68222),
   (68253, 68255), (68331, 68335), (68440, 68447), (68472, 68479), (68521, 68527), (68858, 68863),
   (69216, 69246), (69405, 69414), (69457, 69460), (69573, 69579), (69714, 69733), (70113, 70132),
   (71482, 71483), (71914, 71922), (72794, 72812), (73664, 73684), (74752, 74862), (93019, 93025),
   (93824, 93846), (119520, 119539), (119648, 119672), (125127, 125135), (126065, 126123), (126125, 126127),
   (126129, 126132), (126209, 126253), (126255, 126269), (127232, 127244), (131073, 131073), (131172, 131172),
   (131298, 131298), (131361, 131361), (133418, 133418), (133507, 133507), (133516, 133516), (133532, 133532),
   (133866, 133866), (133885, 133885), (133913, 133913), (140176, 140176), (141720, 141720), (146203, 146203),
   (156269, 156269), (194704, 194704)]

/-- Python `str.isnumeric` on one character. -/
def isNumericChar (c : Char) : Bool :=
  isDecDigitChar c || numericOtherRuns.any (fun r => r.1 ≤ c.toNat && c.toNat ≤ r.2)

/-- Python `str.isnumeric`: non-empty and all characters numeric. -/
def pyIsNumeric (s : String) : Bool := !s.data.isEmpty && s.data.all isNumericChar

/-- Whether Python `int(s)` succeeds on a string that passed `isnumeric`:
every character must be a decimal digit (a numeric-but-not-decimal character
such as a vulgar fraction makes `int` raise ValueError). -/
def pyIntOk (s : String) : Bool := s.data.all isDecDigitChar

/-- Python `int(s)` on a string of Unicode decimal digits. -/
def toNatDigits (s : String) : Nat := s.data.foldl (fun n c => 10 * n + decDigitVal c) 0

/-- Auxiliary scan for `pyFind`: index of the first occurrence of `pat`. -/
def findSubAux (pat : List Char) : List Char → Nat → Option Nat
  | [], i => if leadsWith pat [] then some i else none
  | x :: xs, i => if leadsWith pat (x :: xs) then some i else findSubAux pat xs (i + 1)

/-- Python `hay.find(pat)`, as `none` for `-1`. -/
def pyFind (hay pat : String) : Option Nat := findSubAux pat.data hay.data 0

/-- Python `pat in hay` (substring containment). -/
def hasSub (hay pat : String) : Bool := (pyFind hay pat).isSome

/-- Clamp a Python slice index (negative indices count from the end). -/
def sliceIdx (len : Nat) (i : Int) : Nat :=
  if i < 0 then ((len : Int) + i).toNat else min i.toNat len

/-- Python `s[a:b]` for step 1. -/
def pySlice (s : String) (a b : Int) : String :=
  String.mk (((s.data.take (sliceIdx s.data.length b)).drop (sliceIdx s.data.length a)))

/-- Python `s[a:]`. -/
def pySliceFrom (s : String) (a : Int) : String := pySlice s a (s.data.length : Int)

/-- Index of the last `'.'` in a character list, if any. -/
def revDotIdx : List Char → Option Nat
  | [] => none
  | x :: xs =>
    match revDotIdx xs with
    | some j => some (j + 1)
    | none => if x = '.' then some 0 else none

/-- Python `pathlib` stem of a file name: the name with its final suffix
removed, where a suffix requires the last dot to be neither the first nor the
last character of the name. -/
def pyStem (name : String) : String :=
  match revDotIdx name.data with
  | none => name
  | some i =>
    if 0 < i ∧ i < name.data.length - 1 then String.mk (name.data.take i) else name

/-- The final `/`-separated component of a path. -/
def lastComponent (p : String) : String := String.mk ((splitChar '/' p.data).getLastD [])

/-- Python `Path(f).stem.split("_")[-1]`: the page-number portion of a path. -/
def pageNumOf (p : String) : String := (splitUnder (pyStem (lastComponent p))).getLastD ""

/-- Python string comparison `a <= b` (lexicographic by code point). -/
def charsLe : List Char → List Char → Bool
  | [], _ => true
  | _ :: _, [] => false
  | a :: as, b :: bs => if a < b then true else if b < a then false else charsLe as bs

/-- Python `a <= b` on strings. -/
def pyStrLe (a b : String) : Bool := charsLe a.data b.data

/-- Insert a string into a `pyStrLe`-sorted list. -/
def insortStr (x : String) : List String → List String
  | [] => [x]
  | y :: ys => if pyStrLe x y then x :: y :: ys else y :: insortStr x ys

/-- Python `list.sort()` on strings: the list rearranged into lexicographic
(code-point) order. -/
def pySortStrs (l : List String) : List String := l.foldr insortStr []

/-! ## Sequence validation (`missing_numbers`, both scripts, identical code) -/

/-- `missing_numbers(sequence)`: sort the sequence, then list every integer of
`range(sequence[0], sequence[-1] + 1)` that is not in the sequence.  Python
raises `IndexError` on an empty list, modelled as `none`. -/
def missing_numbers (sequence : List Nat) : Option (List Nat) :=
  match List.insertionSort (· ≤ ·) sequence with
  | [] => none
  | a :: rest =>
    some ((List.range' a (rest.getLastD a + 1 - a)).filter
      (fun x => !((a :: rest).contains x)))

/-- min(S) of a non-empty list (0 for the empty list, which never occurs). -/
def seqMin : List Nat → Nat
  | [] => 0
  | a :: r => r.foldl Nat.min a

/-- max(S) of a non-empty list (0 for the empty list, which never occurs). -/
def seqMax : List Nat → Nat
  | [] => 0
  | a :: r => r.foldl Nat.max a

/-! ## Filename scanning -/

/-- What one directory-scan iteration does with one `.tif`/`.tiff` file name. -/
inductive FileVerdict
  | accept (n : Nat) -- parsed: the file joins `tiff_paths`, `n` joins `sequence`
  | skip             -- unexpected name: a warning is printed, the loop continues
  | ignore           -- not a recognized image file: the loop body does nothing
  | crash            -- dibsiiif only: `parts[0]` on an empty list raises IndexError
deriving DecidableEq

/-- dibsprep.py lines 84-106: accept `barcode_N` (exactly two `_`-parts of the
name before the first dot) or `barcode_Page_N` (exactly three parts with middle
part `Page`), with `N` passing `isnumeric`; anything else with a `.tif`/`.tiff`
ending is skipped with a warning.  When `N` is numeric but not all decimal
digits (e.g. a vulgar fraction), the `int(...)` call raises an uncaught
ValueError that aborts the run. -/
def ruleDibsprep (barcode name : String) : FileVerdict :=
  if endsTiff name then
    let parts := splitUnder (firstDotPart name)
    if parts.length = 2 && parts.headD "" == barcode && pyIsNumeric (parts.getLastD "") then
      if pyIntOk (parts.getLastD "") then .accept (toNatDigits (parts.getLastD ""))
      else .crash
    else if parts.length = 3 && parts.headD "" == barcode
        && pyIsNumeric (parts.getLastD "") && parts.getD 1 "" == "Page" then
      if pyIntOk (parts.getLastD "") then .accept (toNatDigits (parts.getLastD ""))
      else .crash
    else .skip
  else .ignore

/-- dibsiiif.py lines 91-106: split the part before the first dot on `_`,
discard empty pieces, and accept when the first piece equals the barcode and
the last piece is numeric (any number of pieces).  When no piece remains,
`parts[0]` raises an uncaught IndexError; when the last piece is numeric but
not all decimal digits, `int(...)` raises an uncaught ValueError. -/
def ruleDibsiiif (barcode name : String) : FileVerdict :=
  if endsTiff name then
    match (splitUnder (firstDotPart name)).filter (fun p => !(p == "")) with
    | [] => .crash
    | p0 :: tl =>
      if !(p0 == barcode) then .skip
      else if !pyIsNumeric ((p0 :: tl).getLastD "") then .skip
      else if pyIntOk ((p0 :: tl).getLastD "") then
        .accept (toNatDigits ((p0 :: tl).getLastD ""))
      else .crash
  else .ignore

/-- One `os.scandir` entry: a name plus whether it is a regular file. -/
structure ScanEntry where
  name : String
  isFile : Bool
deriving DecidableEq

/-- One iteration of dibsprep.py's scan loop; `none` models the uncaught
ValueError raised by `int` on a numeric-but-not-decimal final part. -/
def prepStep (barcode dir : String) (acc : List String × List Nat) (e : ScanEntry) :
    Option (List String × List Nat) :=
  if e.isFile then
    match ruleDibsprep barcode e.name with
    | .accept n => some (acc.1 ++ [dir ++ "/" ++ e.name], acc.2 ++ [n])
    | .crash => none
    | _ => some acc
  else some acc

/-- dibsprep.py's scan loop: build `tiff_paths` (full paths, in scan order) and
`sequence` (parsed numbers, same order). -/
def scanDibsprep (barcode dir : String) (entries : List ScanEntry) :
    Option (List String × List Nat) :=
  entries.foldlM (prepStep barcode dir) ([], [])

/-- One iteration of dibsiiif.py's scan loop; `none` models the uncaught
IndexError raised on a `.tif` name with no non-empty `_`-parts and the
uncaught ValueError raised by `int` on a numeric-but-not-decimal part. -/
def iiifStep (barcode dir : String) (acc : List String × List Nat) (e : ScanEntry) :
    Option (List String × List Nat) :=
  if e.isFile then
    match ruleDibsiiif barcode e.name with
    | .accept n => some (acc.1 ++ [dir ++ "/" ++ e.name], acc.2 ++ [n])
    | .crash => none
    | _ => some acc
  else some acc

/-- dibsiiif.py's scan loop. -/
def scanDibsiiif (barcode dir : String) (entries : List ScanEntry) :
    Option (List String × List Nat) :=
  entries.foldlM (iiifStep barcode dir) ([], [])

/-- The number a verdict accepts, if any. -/
def acceptNum : FileVerdict → Option Nat
  | .accept n => some n
  | _ => none

/-! ## Metadata extraction, dibsiiif.py (FOLIO flat field list, lines 179-204) -/

/-- A FOLIO field's `content`: control fields carry a structured object (only
its `Date1` key is read); other fields carry a flat string with inline
subfield markers. -/
inductive FieldContent
  | obj (date1 : Option String)
  | text (s : String)
deriving DecidableEq

/-- One entry of the FOLIO `fields` list. -/
structure MarcField where
  tag : String
  content : FieldContent
deriving DecidableEq

/-- The metadata dibsiiif.py accumulates while looping over the fields. -/
structure IiifMeta where
  title : String
  author : String
  edition : String
  year : String
deriving DecidableEq

/-- One iteration of dibsiiif.py's `for field in fields` loop.  Errors model
the exceptions the iteration can raise (all caught by the enclosing `try`,
which writes the problem marker and re-raises). -/
def iiifField (st : IiifMeta) (f : MarcField) : Except String IiifMeta :=
  if f.tag = "008" then
    match f.content with
    | .obj d =>
      .ok { st with year := match d with
                            | some v => if v ≠ "" then v else st.year
                            | none => st.year }
    | .text _ => .error "AttributeError"
  else if f.tag = "245" then
    match f.content with
    | .obj _ => .error "no title found"
    | .text c =>
      if !hasSub c "$a " then .error "no title found"
      else
        let st1 :=
          match pyFind c "$c " with
          | some cp =>
            { st with author := pyStrip (pySliceFrom c ((cp : Int) + 3)),
                      title := pyStrip (pySlice c 3 (cp : Int)) }
          | none => { st with title := pyStrip (pySliceFrom c 3) }
        let st2 :=
          match pyFind c "$b " with
          | some bp =>
            { st1 with title :=
                pySlice st1.title 0 ((bp : Int) - 3) ++ pySliceFrom st1.title (bp : Int) }
          | none => st1
        .ok st2
  else if f.tag = "250" then
    match f.content with
    | .text c => .ok { st with edition := pyStrip (pySliceFrom c 3) }
    | .obj _ => .error "TypeError"
  else .ok st

/-- The `for field in fields` loop: stop at the first exception, thread the
accumulated metadata otherwise. -/
def extractFold (st : IiifMeta) : List MarcField → Except String IiifMeta
  | [] => .ok st
  | f :: fs =>
    match iiifField st f with
    | .error e => .error e
    | .ok st1 => extractFold st1 fs

/-- dibsiiif.py lines 179-204: fold the field loop over the whole list,
starting from four empty strings. -/
def extractIiif (fields : List MarcField) : Except String IiifMeta :=
  extractFold { title := "", author := "", edition := "", year := "" } fields

/-- Well-shaped FOLIO fields: the tags whose content the script touches carry
the content shape the script expects (`008` an object, `245`/`250` a string). -/
def shapeOk (f : MarcField) : Bool :=
  if f.tag = "008" then (match f.content with | .obj _ => true | .text _ => false)
  else if f.tag = "245" ∨ f.tag = "250" then
    (match f.content with | .text _ => true | .obj _ => false)
  else true

/-- All fields well-shaped. -/
def wellShaped (fields : List MarcField) : Bool := fields.all shapeOk

/-! ## Metadata extraction, dibsprep.py (TIND MARCXML record, lines 140-169) -/

/-- A MARCXML field: a control field with flat text, or a data field with
coded subfields. -/
inductive TindField
  | control (tag : String) (text : String)
  | data (tag : String) (subs : List (String × String))
deriving DecidableEq

/-- The field's tag attribute. -/
def TindField.tagOf : TindField → String
  | .control t _ => t
  | .data t _ => t

/-- BeautifulSoup `get_text()` of a field element. -/
def TindField.textOf : TindField → String
  | .control _ s => s
  | .data _ subs => (subs.map Prod.snd).foldl (· ++ ·) ""

/-- BeautifulSoup `select("[tag='T'] > [code='C']")` followed by `get_text()`:
the texts of the matching subfields, in document order. -/
def selectSub (r : List TindField) (tag code : String) : List String :=
  r.foldr
    (fun f acc =>
      match f with
      | .data t subs =>
        if t = tag then (subs.filter (fun p => p.1 == code)).map Prod.snd ++ acc else acc
      | .control _ _ => acc)
    []

/-- BeautifulSoup `select("[tag='T']")` followed by `get_text()`. -/
def selectTag (r : List TindField) (tag : String) : List String :=
  (r.filter (fun f => f.tagOf == tag)).map TindField.textOf

/-- The metadata dibsprep.py extracts. -/
structure PrepMeta where
  title : String
  subtitle : String
  author : String
  edition : String
  year : String
deriving DecidableEq

/-- dibsprep.py lines 150-169: title from 245$a (mandatory, stripped), subtitle
from 245$b (prefixed with a colon-space), author from 245$c (stripped), edition
from 250$a (not stripped), year from characters 7 to 11 of the first field with
tag 008 — whose absence raises IndexError (`tag008[0]` is unguarded). -/
def extractPrep (r : List TindField) : Except String PrepMeta :=
  match selectSub r "245" "a" with
  | [] => .error "title tag was empty"
  | ta :: _ =>
    match selectTag r "008" with
    | [] => .error "IndexError: list index out of range"
    | t8 :: _ =>
      .ok { title := pyStrip ta
          , subtitle := match selectSub r "245" "b" with
                        | [] => ""
                        | tb :: _ => ": " ++ pyStrip tb
          , author := match selectSub r "245" "c" with
                      | [] => ""
                      | tc :: _ => pyStrip tc
          , edition := match selectSub r "250" "a" with
                       | [] => ""
                       | te :: _ => te
          , year := pySlice t8 7 11 }

/-- Decidable equality for `Except`, used to evaluate the extractors on
concrete records. -/
instance {ε α : Type} [DecidableEq ε] [DecidableEq α] : DecidableEq (Except ε α) := fun a b =>
  match a, b with
  | .ok x, .ok y => if h : x = y then .isTrue (by rw [h]) else .isFalse (by simp [h])
  | .error x, .error y => if h : x = y then .isTrue (by rw [h]) else .isFalse (by simp [h])
  | .ok _, .error _ => .isFalse (by simp)
  | .error _, .ok _ => .isFalse (by simp)

/-! ## Manifest model

The constant JSON keys (`@context`, `@type`, `motivation`, `profile`) are the
same in every manifest either script produces; the model keeps the varying
values. -/

/-- One entry of the manifest's `metadata` array. -/
structure MetaEntry where
  label : String
  value : String
deriving DecidableEq

/-- One canvas: its `@id`, `label`, dimensions, the annotation's `on` target,
and the image resource's and image service's `@id`s. -/
structure Canvas where
  id : String
  label : String
  width : String
  height : String
  onTarget : String
  resourceId : String
  serviceId : String
deriving DecidableEq

/-- The manifest document. -/
structure Manifest where
  id : String
  logo : String
  label : String
  attribution : Option String
  metadata : List MetaEntry
  canvases : List Canvas
deriving DecidableEq

/-- The canvas both scripts build for one page (dibsiiif.py lines 282-304,
dibsprep.py lines 233-255). -/
def mkCanvas (canvasBase iiifBase barcode pn w h : String) : Canvas :=
  { id := canvasBase ++ "/" ++ barcode ++ "/" ++ pn
  , label := pn
  , width := w
  , height := h
  , onTarget := canvasBase ++ "/" ++ barcode ++ "/" ++ pn
  , resourceId := iiifBase ++ "/" ++ barcode ++ "%2F" ++ pn ++ "/full/max/0/default.jpg"
  , serviceId := iiifBase ++ "/" ++ barcode ++ "%2F" ++ pn }

/-- dibsiiif.py lines 212-219: the manifest `metadata` array. -/
def iiifMetaList (m : IiifMeta) : List MetaEntry :=
  [⟨"Title", m.title⟩]
    ++ (if m.author ≠ "" then [⟨"Author", m.author⟩] else [])
    ++ (if m.edition ≠ "" then [⟨"Edition", m.edition⟩] else [])
    ++ [⟨"Year", m.year⟩]

/-- dibsprep.py lines 175-182: as above, but the Title value carries the
subtitle (the top-level label does not). -/
def prepMetaList (m : PrepMeta) : List MetaEntry :=
  [⟨"Title", m.title ++ m.subtitle⟩]
    ++ (if m.author ≠ "" then [⟨"Author", m.author⟩] else [])
    ++ (if m.edition ≠ "" then [⟨"Edition", m.edition⟩] else [])
    ++ [⟨"Year", m.year⟩]

/-! ## Pipeline runs

Each script's `main` becomes a function from an environment — the outcomes of
every external interaction — to a run outcome.  File-system writes that carry
no branch (problem-marker writes, `os.makedirs(exist_ok=True)`, the manifest
write, the final marker unlink) are assumed to succeed. -/

/-- Result of one S3 `put_object` call: success, or a
`botocore.exceptions.ClientError` with an error code. -/
inductive UploadOutcome
  | ok
  | clientErr (code : String)
deriving DecidableEq

/-- How a run of `main` ends.  `raised b` means an exception propagated out
(the process exits non-zero), with `b` recording whether a diagnostic trace
was written to the barcode's problem marker file.  `exitZero` models
dibsprep.py's bare `sys.exit()` after a vips failure: the process stops with
exit status zero and no problem marker. -/
inductive RunOutcome
  | ok (m : Manifest)
  | raised (problemWritten : Bool)
  | exitZero
deriving DecidableEq

/-- The manifest of a successful outcome (an empty manifest otherwise). -/
def outManifest (o : RunOutcome) : Manifest :=
  match o with
  | .ok m => m
  | _ => { id := "", logo := "", label := "", attribution := none, metadata := [], canvases := [] }

/-- Whether the run completed. -/
def RunOutcome.isOk : RunOutcome → Bool
  | .ok _ => true
  | _ => false

/-- Environment of one dibsiiif.py run. -/
structure IiifEnv where
  barcode : String
  canvasBase : String
  iiifBase : String
  manifestBase : String
  processingFree : Bool      -- `touch(exist_ok=False)` succeeds iff no marker exists
  initiated : Bool           -- initiated marker present (unlinked with missing_ok=True)
  dirOk : Bool               -- the barcode directory resolves
  dir : String
  entries : List ScanEntry
  fields : Option (List MarcField)  -- some: the FOLIO request chain delivered fields
  vips : String → Bool       -- conversion success, per source path
  widthOf : String → String  -- vipsheader width, per source path
  heightOf : String → String -- vipsheader height, per source path
  upload : String → UploadOutcome
  moveOk : Bool

/-- dibsiiif.py lines 231-306: the per-page loop over the sorted paths.  A vips
failure raises `RuntimeError` outside any stage `try` (no problem marker); an
upload `ClientError` is swallowed when its code is `InternalError` and
re-raised (again without a problem marker) otherwise; the page's canvas is
appended after the upload attempt either way. -/
def iiifLoop (env : IiifEnv) : List String → Except RunOutcome (List Canvas)
  | [] => .ok []
  | f :: fs =>
    if env.vips f then
      match env.upload f with
      | .ok =>
        (iiifLoop env fs).map
          (mkCanvas env.canvasBase env.iiifBase env.barcode (pageNumOf f)
            (env.widthOf f) (env.heightOf f) :: ·)
      | .clientErr code =>
        if code = "InternalError" then
          (iiifLoop env fs).map
            (mkCanvas env.canvasBase env.iiifBase env.barcode (pageNumOf f)
              (env.widthOf f) (env.heightOf f) :: ·)
        else .error (.raised false)
    else .error (.raised false)

/-- dibsiiif.py `main`: marker bookkeeping, directory validation, scan, gap
check, metadata, page loop, manifest write, directory move.  The scan loop is
outside any try, so its IndexError/ValueError crashes raise with no problem
marker.  The initiated marker is removed with `missing_ok=True`, so
`env.initiated` never affects the outcome. -/
def dibsiiifMain (env : IiifEnv) : RunOutcome :=
  if !env.processingFree then .raised true
  else if !env.dirOk then .raised true
  else if env.entries.isEmpty then .raised true
  else
    match scanDibsiiif env.barcode env.dir env.entries with
    | none => .raised false
    | some (paths, seq) =>
      if paths.isEmpty then .raised true
      else
        match missing_numbers seq with
        | none => .raised true
        | some (_ :: _) => .raised true
        | some [] =>
          match env.fields with
          | none => .raised true
          | some fs =>
            match extractIiif fs with
            | .error _ => .raised true
            | .ok meta =>
              match iiifLoop env (pySortStrs paths) with
              | .error o => o
              | .ok cs =>
                if !env.moveOk then .raised true
                else .ok
                  { id := env.manifestBase ++ "/" ++ env.barcode
                  , logo := env.iiifBase ++ "/logo/full/max/0/default.png"
                  , label := meta.title
                  , attribution := none
                  , metadata := iiifMetaList meta
                  , canvases := cs }

/-- Environment of one dibsprep.py run. -/
structure PrepEnv where
  barcode : String
  canvasBase : String
  iiifBase : String
  manifestBase : String
  initiated : Bool           -- the strict `unlink()` fails iff the marker is absent
  processingFree : Bool
  dirOk : Bool
  dir : String
  entries : List ScanEntry
  record : Option (List TindField)  -- some: the TIND request succeeded
  vips : String → Bool
  widthOf : String → String
  heightOf : String → String
  upload : String → UploadOutcome
  moveOk : Bool

/-- dibsprep.py lines 192-257: the per-page loop.  A vips failure prints an
error and calls `sys.exit()` with no argument: exit status zero, no problem
marker. -/
def prepLoop (env : PrepEnv) : List String → Except RunOutcome (List Canvas)
  | [] => .ok []
  | f :: fs =>
    if env.vips f then
      match env.upload f with
      | .ok =>
        (prepLoop env fs).map
          (mkCanvas env.canvasBase env.iiifBase env.barcode (pageNumOf f)
            (env.widthOf f) (env.heightOf f) :: ·)
      | .clientErr code =>
        if code = "InternalError" then
          (prepLoop env fs).map
            (mkCanvas env.canvasBase env.iiifBase env.barcode (pageNumOf f)
              (env.widthOf f) (env.heightOf f) :: ·)
        else .error (.raised false)
    else .error .exitZero

/-- dibsprep.py `main`: the initiated marker is unlinked strictly (its absence
raises, writes the problem marker, and aborts) before the processing marker is
created; the scan loop is outside any try, so its ValueError crash raises with
no problem marker; the final `shutil.move` is not wrapped, so its failure
raises without a problem marker. -/
def dibsprepMain (env : PrepEnv) : RunOutcome :=
  if !env.initiated then .raised true
  else if !env.processingFree then .raised true
  else if !env.dirOk then .raised true
  else if env.entries.isEmpty then .raised true
  else
    match scanDibsprep env.barcode env.dir env.entries with
    | none => .raised false
    | some (paths, seq) =>
      if paths.isEmpty then .raised true
      else
        match missing_numbers seq with
        | none => .raised true
        | some (_ :: _) => .raised true
        | some [] =>
          match env.record with
          | none => .raised true
          | some r =>
            match extractPrep r with
            | .error _ => .raised true
            | .ok meta =>
              match prepLoop env (pySortStrs paths) with
              | .error o => o
              | .ok cs =>
                if !env.moveOk then .raised false
                else .ok
                  { id := env.manifestBase ++ "/" ++ env.barcode
                  , logo := env.iiifBase ++ "/logo/full/max/0/default.png"
                  , label := meta.title
                  , attribution := some "Caltech Library"
                  , metadata := prepMetaList meta
                  , canvases := cs }

/-! ## Claim-side (spec-worded) definitions -/

/-- Claim-side: `s` is a non-negative integer literal — a non-empty run of
decimal digits, exactly the strings `int` parses. -/
def pyDecimalLit (s : String) : Bool := !s.data.isEmpty && s.data.all isDecDigitChar

/-- Claim-side reading of C3: a file name matches one of the two accepted
conventions when its extension-stripped name splits on `_` into exactly
`[barcode, N]` or `[barcode, "Page", N]` with `N` a non-negative integer
literal; the parsed number is returned. -/
def specConventionNum (barcode name : String) : Option Nat :=
  match splitUnder (pyStem name) with
  | [b, n] => if b = barcode ∧ pyDecimalLit n then some (toNatDigits n) else none
  | [b, p, n] =>
    if b = barcode ∧ p = "Page" ∧ pyDecimalLit n then some (toNatDigits n) else none
  | _ => none

/-- Claim-side reading of C2: a number list is strictly ascending. -/
def ascendingNums : List Nat → Bool
  | [] => true
  | [_] => true
  | a :: b :: rest => a < b && ascendingNums (b :: rest)

/-! ## Concrete environments used to evaluate the pipelines -/

/-- A fully healthy dibsiiif.py environment: one page, all collaborators
succeed. -/
def iiifEnvBase : IiifEnv :=
  { barcode := "b"
  , canvasBase := "https://cv"
  , iiifBase := "https://ii"
  , manifestBase := "https://mf"
  , processingFree := true
  , initiated := true
  , dirOk := true
  , dir := "u/b"
  , entries := [⟨"b_1.tif", true⟩]
  , fields := some [⟨"245", .text "$a T"⟩]
  , vips := fun _ => true
  , widthOf := fun _ => "100"
  , heightOf := fun _ => "200"
  , upload := fun _ => .ok
  , moveOk := true }

/-- The record of §8's subtitle example. -/
def recMain : List TindField :=
  [.data "245" [("a", "Main Title /"), ("b", "A Subtitle /"), ("c", "Author Name")],
   .control "008" "120118s2012xxxx"]

/-- A fully healthy dibsprep.py environment. -/
def prepEnvBase : PrepEnv :=
  { barcode := "b"
  , canvasBase := "https://cv"
  , iiifBase := "https://ii"
  , manifestBase := "https://mf"
  , initiated := true
  , processingFree := true
  , dirOk := true
  , dir := "u/b"
  , entries := [⟨"b_1.tif", true⟩]
  , record := some recMain
  , vips := fun _ => true
  , widthOf := fun _ => "100"
  , heightOf := fun _ => "200"
  , upload := fun _ => .ok
  , moveOk := true }

/-- Pages 9 and 10: a contiguous sequence whose lexicographic path order
differs from its numeric order. -/
def iiifEnvNine : IiifEnv :=
  { iiifEnvBase with entries := [⟨"b_9.tif", true⟩, ⟨"b_10.tif", true⟩] }

/-- A record whose fields contain no tag 245 at all. -/
def iiifEnvNo245 : IiifEnv :=
  { iiifEnvBase with fields := some [⟨"100", .text "x"⟩] }

/-- Scan entries with a gap (pages 1 and 3), parameterized by the conversion
and upload oracles the run never reaches. -/
def iiifEnvGap (v : String → Bool) (u : String → UploadOutcome) : IiifEnv :=
  { iiifEnvBase with entries := [⟨"b_1.tif", true⟩, ⟨"b_3.tif", true⟩],
                     vips := v, upload := u }

/-- A failing conversion tool, any upload oracle. -/
def iiifEnvVipsFail (u : String → UploadOutcome) : IiifEnv :=
  { iiifEnvBase with vips := fun _ => false, upload := u }

/-- dibsprep.py analogue of `iiifEnvGap`. -/
def prepEnvGap (v : String → Bool) (u : String → UploadOutcome) : PrepEnv :=
  { prepEnvBase with entries := [⟨"b_1.tif", true⟩, ⟨"b_3.tif", true⟩],
                     vips := v, upload := u }

/-- dibsprep.py with a failing conversion tool. -/
def prepEnvVipsFail (u : String → UploadOutcome) : PrepEnv :=
  { prepEnvBase with vips := fun _ => false, upload := u }

/-- dibsprep.py invoked with no initiated marker present. -/
def prepEnvNoInitiated : PrepEnv := { prepEnvBase with initiated := false }

/-! ## Auxiliary claim-side readings for C3 -/

/-- Claim-side: the two conventions of C3 read over the part of the name
before the first dot (which is what dibsprep.py actually splits), with the
final part a run of decimal digits that `int` parses. -/
def specConventionFD (barcode name : String) : Option Nat :=
  if endsTiff name then
    match splitUnder (firstDotPart name) with
    | [b, n] => if b = barcode ∧ pyDecimalLit n then some (toNatDigits n) else none
    | [b, p, n] =>
      if b = barcode ∧ p = "Page" ∧ pyDecimalLit n then some (toNatDigits n) else none
    | _ => none
  else none

/-- Claim-side: what dibsiiif.py actually accepts — first non-empty
underscore-part equals the barcode and the last one is a decimal integer
literal, with any number of parts in between. -/
def iiifAcceptSpec (barcode name : String) : Option Nat :=
  if endsTiff name then
    match (splitUnder (firstDotPart name)).filter (fun p => !(p == "")) with
    | [] => none
    | p0 :: tl =>
      if p0 = barcode ∧ pyDecimalLit ((p0 :: tl).getLastD "") then
        some (toNatDigits ((p0 :: tl).getLastD ""))
      else none
  else none

/-- Claim-side: the name, truncated at its first dot, matches one of the two
convention shapes with the barcode first and an `isnumeric` final part — the
exact precondition under which dibsprep.py calls `int` on that part. -/
def prepShape (barcode name : String) : Bool :=
  ((splitUnder (firstDotPart name)).length = 2
    && (splitUnder (firstDotPart name)).headD "" == barcode
    && pyIsNumeric ((splitUnder (firstDotPart name)).getLastD ""))
  || ((splitUnder (firstDotPart name)).length = 3
    && (splitUnder (firstDotPart name)).headD "" == barcode
    && pyIsNumeric ((splitUnder (firstDotPart name)).getLastD "")
    && (splitUnder (firstDotPart name)).getD 1 "" == "Page")

/-! ## Additional concrete environments -/

/-- dibsiiif.py where every upload fails with the storage code InternalError. -/
def iiifEnvInternalErr : IiifEnv :=
  { iiifEnvBase with upload := fun _ => .clientErr "InternalError" }

/-- dibsprep.py where every upload fails with the storage code InternalError. -/
def prepEnvInternalErr : PrepEnv :=
  { prepEnvBase with upload := fun _ => .clientErr "InternalError" }

/-! ## Theorems -/

theorem iiifLoop_initiated (env : IiifEnv) (b : Bool) :
    ∀ ps, iiifLoop { env with initiated := b } ps = iiifLoop env ps := by
  intro ps
  induction ps with
  | nil => rfl
  | cons f fs ih =>
    simp only [iiifLoop, ih]

theorem dibsiiifMain_initiated (env : IiifEnv) (b : Bool) :
    dibsiiifMain { env with initiated := b } = dibsiiifMain env := by
  unfold dibsiiifMain
  dsimp only
  simp only [iiifLoop_initiated]

theorem iiifLoop_swallow (env : IiifEnv)
    (h : ∀ f, env.upload f = .ok ∨ env.upload f = .clientErr "InternalError") :
    ∀ ps, iiifLoop env ps = iiifLoop { env with upload := fun _ => .ok } ps := by
  intro ps
  induction ps with
  | nil => rfl
  | cons f fs ih =>
    simp only [iiifLoop, ih]
    rcases h f with hf | hf
    · simp [hf]
    · simp [hf]

theorem prepLoop_swallow (env : PrepEnv)
    (h : ∀ f, env.upload f = .ok ∨ env.upload f = .clientErr "InternalError") :
    ∀ ps, prepLoop env ps = prepLoop { env with upload := fun _ => .ok } ps := by
  intro ps
  induction ps with
  | nil => rfl
  | cons f fs ih =>
    simp only [prepLoop, ih]
    rcases h f with hf | hf
    · simp [hf]
    · simp [hf]

/-! ## Facts about `seqMin`, `seqMax` and sorted lists -/

theorem foldl_min_le_init (a : Nat) (r : List Nat) : r.foldl Nat.min a ≤ a := by
  induction r generalizing a with
  | nil => exact Nat.le_refl a
  | cons b r ih => exact le_trans (ih (Nat.min a b)) (Nat.min_le_left a b)

theorem foldl_min_mem (a : Nat) (r : List Nat) : r.foldl Nat.min a ∈ a :: r := by
  induction r generalizing a with
  | nil => simp
  | cons b r ih =>
    have h := ih (Nat.min a b)
    simp only [List.foldl_cons]
    rcases List.mem_cons.mp h with h | h
    · rw [h]
      have h2 : a.min b = a ∨ a.min b = b := min_choice a b
      rcases h2 with h2 | h2
      · simp [h2]
      · simp [h2]
    · exact List.mem_cons_of_mem _ (List.mem_cons_of_mem _ h)

theorem foldl_min_le (a : Nat) (r : List Nat) : ∀ x ∈ a :: r, r.foldl Nat.min a ≤ x := by
  induction r generalizing a with
  | nil =>
    intro x hx
    rw [List.mem_singleton] at hx
    simp [hx]
  | cons b r ih =>
    intro x hx
    simp only [List.foldl_cons]
    rcases List.mem_cons.mp hx with rfl | hx2
    · exact le_trans (foldl_min_le_init _ _) (Nat.min_le_left x b)
    · rcases List.mem_cons.mp hx2 with rfl | hx3
      · exact le_trans (foldl_min_le_init _ _) (Nat.min_le_right a x)
      · exact ih (Nat.min a b) x (List.mem_cons_of_mem _ hx3)

theorem init_le_foldl_max (a : Nat) (r : List Nat) : a ≤ r.foldl Nat.max a := by
  induction r generalizing a with
  | nil => exact Nat.le_refl a
  | cons b r ih => exact le_trans (Nat.le_max_left a b) (ih (Nat.max a b))

theorem foldl_max_mem (a : Nat) (r : List Nat) : r.foldl Nat.max a ∈ a :: r := by
  induction r generalizing a with
  | nil => simp
  | cons b r ih =>
    have h := ih (Nat.max a b)
    simp only [List.foldl_cons]
    rcases List.mem_cons.mp h with h | h
    · rw [h]
      have h2 : a.max b = a ∨ a.max b = b := max_choice a b
      rcases h2 with h2 | h2
      · simp [h2]
      · simp [h2]
    · exact List.mem_cons_of_mem _ (List.mem_cons_of_mem _ h)

theorem le_foldl_max (a : Nat) (r : List Nat) : ∀ x ∈ a :: r, x ≤ r.foldl Nat.max a := by
  induction r generalizing a with
  | nil =>
    intro x hx
    rw [List.mem_singleton] at hx
    simp [hx]
  | cons b r ih =>
    intro x hx
    simp only [List.foldl_cons]
    rcases List.mem_cons.mp hx with rfl | hx2
    · exact le_trans (Nat.le_max_left x b) (init_le_foldl_max _ _)
    · rcases List.mem_cons.mp hx2 with rfl | hx3
      · exact le_trans (Nat.le_max_right a x) (init_le_foldl_max _ _)
      · exact ih (Nat.max a b) x (List.mem_cons_of_mem _ hx3)

theorem seqMin_mem (s : List Nat) (hs : s ≠ []) : seqMin s ∈ s := by
  cases s with
  | nil => exact absurd rfl hs
  | cons a r => exact foldl_min_mem a r

theorem seqMin_le (s : List Nat) : ∀ x ∈ s, seqMin s ≤ x := by
  cases s with
  | nil => intro x hx; exact absurd hx (List.not_mem_nil x)
  | cons a r => exact foldl_min_le a r

theorem seqMax_mem (s : List Nat) (hs : s ≠ []) : seqMax s ∈ s := by
  cases s with
  | nil => exact absurd rfl hs
  | cons a r => exact foldl_max_mem a r

theorem le_seqMax (s : List Nat) : ∀ x ∈ s, x ≤ seqMax s := by
  cases s with
  | nil => intro x hx; exact absurd hx (List.not_mem_nil x)
  | cons a r => exact le_foldl_max a r

theorem getLastD_mem {α : Type} : ∀ (l : List α) (a : α), l.getLastD a ∈ a :: l := by
  intro l
  induction l with
  | nil => simp
  | cons b l ih =>
    intro a
    rw [List.getLastD_cons]
    exact List.mem_cons_of_mem _ (ih b)

theorem sorted_le_getLastD : ∀ (l : List Nat) (a : Nat),
    List.Sorted (· ≤ ·) (a :: l) → ∀ x ∈ a :: l, x ≤ l.getLastD a := by
  intro l
  induction l with
  | nil =>
    intro a _ x hx
    rw [List.mem_singleton] at hx
    rw [hx]
    exact Nat.le_refl a
  | cons b l ih =>
    intro a hsort x hx
    rw [List.getLastD_cons]
    rcases List.mem_cons.mp hx with rfl | hx2
    · have hab : x ≤ b := List.rel_of_sorted_cons hsort b (List.mem_cons_self _ _)
      exact le_trans hab (ih b hsort.of_cons b (List.mem_cons_self _ _))
    · exact ih b hsort.of_cons x hx2

/-! ## Characterization of `missing_numbers` -/

theorem missing_numbers_spec (s : List Nat) (hs : s ≠ []) :
    ∃ m, missing_numbers s = some m ∧
      List.Sorted (· < ·) m ∧
      (∀ n, n ∈ m ↔ (seqMin s ≤ n ∧ n ≤ seqMax s ∧ n ∉ s)) ∧
      (m = [] ↔ ∀ n, seqMin s ≤ n → n ≤ seqMax s → n ∈ s) := by
  cases ht : List.insertionSort (· ≤ ·) s with
  | nil =>
    have hnil : s = [] := by
      have hp := List.perm_insertionSort (· ≤ ·) s
      rw [ht] at hp
      exact hp.symm.eq_nil
    exact absurd hnil hs
  | cons a rest =>
    have hp : (a :: rest).Perm s := by
      have h := List.perm_insertionSort (· ≤ ·) s
      rwa [ht] at h
    have hsorted : List.Sorted (· ≤ ·) (a :: rest) := by
      have h := List.sorted_insertionSort (· ≤ ·) s
      rwa [ht] at h
    have hmem : ∀ x, x ∈ a :: rest ↔ x ∈ s := fun x => hp.mem_iff
    have hamin : a = seqMin s := by
      have ha_in : a ∈ s := (hmem a).mp (List.mem_cons_self _ _)
      have h1 : seqMin s ≤ a := seqMin_le s a ha_in
      have h2 : a ≤ seqMin s := by
        rcases List.mem_cons.mp ((hmem _).mpr (seqMin_mem s hs)) with h | h
        · exact le_of_eq h.symm
        · exact List.rel_of_sorted_cons hsorted _ h
      exact Nat.le_antisymm h2 h1
    have hlast : rest.getLastD a = seqMax s := by
      have hin : rest.getLastD a ∈ s := (hmem _).mp (getLastD_mem rest a)
      have h1 : rest.getLastD a ≤ seqMax s := le_seqMax s _ hin
      have h2 : seqMax s ≤ rest.getLastD a :=
        sorted_le_getLastD rest a hsorted _ ((hmem _).mpr (seqMax_mem s hs))
      exact Nat.le_antisymm h1 h2
    have hle : a ≤ rest.getLastD a :=
      sorted_le_getLastD rest a hsorted a (List.mem_cons_self _ _)
    have hbound : a + (rest.getLastD a + 1 - a) = rest.getLastD a + 1 := by omega
    refine ⟨(List.range' a (rest.getLastD a + 1 - a)).filter
      (fun x => !((a :: rest).contains x)), ?_, ?_, ?_, ?_⟩
    · unfold missing_numbers
      rw [ht]
    · exact List.Pairwise.filter _ (List.pairwise_lt_range' a _)
    · intro n
      rw [List.mem_filter, List.mem_range'_1, hbound]
      rw [← hamin, ← hlast]
      constructor
      · rintro ⟨⟨h1, h2⟩, h3⟩
        refine ⟨h1, by omega, ?_⟩
        intro hns
        have hin : n ∈ a :: rest := (hmem n).mpr hns
        simp [List.contains, hin] at h3
      · rintro ⟨h1, h2, h3⟩
        refine ⟨⟨h1, by omega⟩, ?_⟩
        have hnin : n ∉ a :: rest := fun hin => h3 ((hmem n).mp hin)
        simp [List.contains, hnin]
    · constructor
      · intro hempty n hlo hhi
        by_contra hns
        have hin : n ∈ (List.range' a (rest.getLastD a + 1 - a)).filter
            (fun x => !((a :: rest).contains x)) := by
          rw [List.mem_filter, List.mem_range'_1, hbound]
          have hnin : n ∉ a :: rest := fun hm => hns ((hmem n).mp hm)
          rw [← hamin] at hlo
          rw [← hlast] at hhi
          refine ⟨⟨hlo, by omega⟩, ?_⟩
          simp [List.contains, hnin]
        rw [hempty] at hin
        exact absurd hin (List.not_mem_nil n)
      · intro hall
        rw [List.eq_nil_iff_forall_not_mem]
        intro n hin
        rw [List.mem_filter, List.mem_range'_1, hbound] at hin
        rcases hin with ⟨⟨h1, h2⟩, h3⟩
        have hns : n ∈ s := by
          apply hall n
          · rw [← hamin]; exact h1
          · rw [← hlast]; omega
        have hinl : n ∈ a :: rest := (hmem n).mpr hns
        simp [List.contains, hinl] at h3

/-! ## Characterization of the directory scans -/

theorem scanDibsprep_aux (b d : String) :
    ∀ (es : List ScanEntry) (acc : List String × List Nat),
      (∀ e ∈ es, e.isFile = true → ruleDibsprep b e.name ≠ .crash) →
      es.foldlM (prepStep b d) acc =
        some (acc.1 ++ es.filterMap (fun e => if e.isFile then
            (acceptNum (ruleDibsprep b e.name)).map (fun _ => d ++ "/" ++ e.name) else none),
          acc.2 ++ es.filterMap (fun e => if e.isFile then
            acceptNum (ruleDibsprep b e.name) else none)) := by
  intro es
  induction es with
  | nil => intro acc _; simp [List.foldlM]
  | cons e es ih =>
    intro acc hnc
    rw [List.foldlM_cons, List.filterMap_cons, List.filterMap_cons]
    have hnc2 : ∀ g ∈ es, g.isFile = true → ruleDibsprep b g.name ≠ .crash :=
      fun g hg => hnc g (List.mem_cons_of_mem _ hg)
    by_cases hf : e.isFile
    · cases hr : ruleDibsprep b e.name with
      | crash => exact absurd hr (hnc e (List.mem_cons_self _ _) hf)
      | accept n =>
        have hstep : prepStep b d acc e
            = some (acc.1 ++ [d ++ "/" ++ e.name], acc.2 ++ [n]) := by
          unfold prepStep
          rw [if_pos hf, hr]
        rw [hstep, Option.bind_eq_bind, Option.some_bind, ih _ hnc2]
        simp [acceptNum, hf, hr, List.append_assoc]
      | skip =>
        have hstep : prepStep b d acc e = some acc := by
          unfold prepStep
          rw [if_pos hf, hr]
        rw [hstep, Option.bind_eq_bind, Option.some_bind, ih _ hnc2]
        simp [acceptNum, hf, hr]
      | ignore =>
        have hstep : prepStep b d acc e = some acc := by
          unfold prepStep
          rw [if_pos hf, hr]
        rw [hstep, Option.bind_eq_bind, Option.some_bind, ih _ hnc2]
        simp [acceptNum, hf, hr]
    · have hstep : prepStep b d acc e = some acc := by
        unfold prepStep
        rw [if_neg hf]
      rw [hstep, Option.bind_eq_bind, Option.some_bind, ih _ hnc2]
      simp [hf]

/-- The dibsprep.py sequencer, in closed form: when no entry makes `int`
raise, the scan completes with one (path, number) pair per accepted entry, in
scan order, with no deduplication. -/
theorem scanDibsprep_eq (b d : String) (es : List ScanEntry)
    (hnc : ∀ e ∈ es, e.isFile = true → ruleDibsprep b e.name ≠ .crash) :
    scanDibsprep b d es =
      some (es.filterMap (fun e => if e.isFile then
          (acceptNum (ruleDibsprep b e.name)).map (fun _ => d ++ "/" ++ e.name) else none),
        es.filterMap (fun e => if e.isFile then
          acceptNum (ruleDibsprep b e.name) else none)) := by
  unfold scanDibsprep
  rw [scanDibsprep_aux b d es ([], []) hnc]
  simp

theorem prepStep_lengths (b d : String) (e : ScanEntry) (acc acc2 : List String × List Nat)
    (hlen : acc.1.length = acc.2.length) (h : prepStep b d acc e = some acc2) :
    acc2.1.length = acc2.2.length := by
  unfold prepStep at h
  by_cases hf : e.isFile
  · rw [if_pos hf] at h
    cases hr : ruleDibsprep b e.name
    all_goals rw [hr] at h
    all_goals simp at h
    all_goals rw [← h]
    all_goals simp [hlen]
  · rw [if_neg hf] at h
    simp at h
    rw [← h]
    exact hlen

theorem scanDibsprep_lengths_aux (b d : String) :
    ∀ (es : List ScanEntry) (acc r : List String × List Nat),
      acc.1.length = acc.2.length →
      es.foldlM (prepStep b d) acc = some r → r.1.length = r.2.length := by
  intro es
  induction es with
  | nil =>
    intro acc r hlen h
    simp [List.foldlM] at h
    rw [← h]
    exact hlen
  | cons e es ih =>
    intro acc r hlen h
    rw [List.foldlM_cons] at h
    cases hstep : prepStep b d acc e with
    | none => rw [hstep] at h; exact absurd h (by simp)
    | some acc2 =>
      rw [hstep] at h
      simp only [Option.bind_eq_bind, Option.some_bind] at h
      exact ih acc2 r (prepStep_lengths b d e acc acc2 hlen hstep) h

theorem scanDibsprep_lengths (b d : String) (es : List ScanEntry)
    (r : List String × List Nat) (h : scanDibsprep b d es = some r) :
    r.1.length = r.2.length :=
  scanDibsprep_lengths_aux b d es ([], []) r rfl h

theorem iiifStep_lengths (b d : String) (e : ScanEntry) (acc acc2 : List String × List Nat)
    (hlen : acc.1.length = acc.2.length) (h : iiifStep b d acc e = some acc2) :
    acc2.1.length = acc2.2.length := by
  unfold iiifStep at h
  by_cases hf : e.isFile
  · rw [if_pos hf] at h
    cases hr : ruleDibsiiif b e.name
    all_goals rw [hr] at h
    all_goals simp at h
    all_goals rw [← h]
    all_goals simp [hlen]
  · rw [if_neg hf] at h
    simp at h
    rw [← h]
    exact hlen

theorem scanDibsiiif_lengths_aux (b d : String) :
    ∀ (es : List ScanEntry) (acc r : List String × List Nat),
      acc.1.length = acc.2.length →
      es.foldlM (iiifStep b d) acc = some r → r.1.length = r.2.length := by
  intro es
  induction es with
  | nil =>
    intro acc r hlen h
    simp [List.foldlM] at h
    rw [← h]
    exact hlen
  | cons e es ih =>
    intro acc r hlen h
    rw [List.foldlM_cons] at h
    cases hstep : iiifStep b d acc e with
    | none => rw [hstep] at h; exact absurd h (by simp)
    | some acc2 =>
      rw [hstep] at h
      simp only [Option.bind_eq_bind, Option.some_bind] at h
      exact ih acc2 r (iiifStep_lengths b d e acc acc2 hlen hstep) h

theorem scanDibsiiif_lengths (b d : String) (es : List ScanEntry)
    (r : List String × List Nat) (h : scanDibsiiif b d es = some r) :
    r.1.length = r.2.length :=
  scanDibsiiif_lengths_aux b d es ([], []) r rfl h

/-! ## Inversion of the page loops and runs -/

theorem iiifLoop_ok (env : IiifEnv) :
    ∀ ps cs, iiifLoop env ps = .ok cs →
      cs = ps.map (fun f => mkCanvas env.canvasBase env.iiifBase env.barcode (pageNumOf f)
        (env.widthOf f) (env.heightOf f)) := by
  intro ps
  induction ps with
  | nil =>
    intro cs h
    simp only [iiifLoop] at h
    cases h
    rfl
  | cons f fs ih =>
    intro cs h
    simp only [iiifLoop] at h
    by_cases hv : env.vips f
    · rw [if_pos hv] at h
      cases hu : env.upload f with
      | ok =>
        rw [hu] at h; dsimp only at h
        cases hrec : iiifLoop env fs with
        | error o => rw [hrec] at h; exact absurd h (by simp [Except.map])
        | ok cs2 =>
          rw [hrec] at h
          simp only [Except.map] at h
          cases h
          rw [List.map_cons, ih cs2 hrec]
      | clientErr code =>
        rw [hu] at h; dsimp only at h
        by_cases hc : code = "InternalError"
        · rw [if_pos hc] at h
          cases hrec : iiifLoop env fs with
          | error o => rw [hrec] at h; exact absurd h (by simp [Except.map])
          | ok cs2 =>
            rw [hrec] at h
            simp only [Except.map] at h
            cases h
            rw [List.map_cons, ih cs2 hrec]
        · rw [if_neg hc] at h
          exact absurd h (by simp)
    · rw [if_neg hv] at h
      exact absurd h (by simp)

theorem iiifLoop_error (env : IiifEnv) :
    ∀ ps o, iiifLoop env ps = .error o → o = .raised false := by
  intro ps
  induction ps with
  | nil =>
    intro o h
    simp only [iiifLoop] at h
    exact absurd h (by simp)
  | cons f fs ih =>
    intro o h
    simp only [iiifLoop] at h
    by_cases hv : env.vips f
    · rw [if_pos hv] at h
      cases hu : env.upload f with
      | ok =>
        rw [hu] at h; dsimp only at h
        cases hrec : iiifLoop env fs with
        | error o2 =>
          rw [hrec] at h
          simp only [Except.map] at h
          cases h
          exact ih o hrec
        | ok cs2 => rw [hrec] at h; exact absurd h (by simp [Except.map])
      | clientErr code =>
        rw [hu] at h; dsimp only at h
        by_cases hc : code = "InternalError"
        · rw [if_pos hc] at h
          cases hrec : iiifLoop env fs with
          | error o2 =>
            rw [hrec] at h
            simp only [Except.map] at h
            cases h
            exact ih o hrec
          | ok cs2 => rw [hrec] at h; exact absurd h (by simp [Except.map])
        · rw [if_neg hc] at h
          cases h
          rfl
    · rw [if_neg hv] at h
      cases h
      rfl

theorem prepLoop_ok (env : PrepEnv) :
    ∀ ps cs, prepLoop env ps = .ok cs →
      cs = ps.map (fun f => mkCanvas env.canvasBase env.iiifBase env.barcode (pageNumOf f)
        (env.widthOf f) (env.heightOf f)) := by
  intro ps
  induction ps with
  | nil =>
    intro cs h
    simp only [prepLoop] at h
    cases h
    rfl
  | cons f fs ih =>
    intro cs h
    simp only [prepLoop] at h
    by_cases hv : env.vips f
    · rw [if_pos hv] at h
      cases hu : env.upload f with
      | ok =>
        rw [hu] at h; dsimp only at h
        cases hrec : prepLoop env fs with
        | error o => rw [hrec] at h; exact absurd h (by simp [Except.map])
        | ok cs2 =>
          rw [hrec] at h
          simp only [Except.map] at h
          cases h
          rw [List.map_cons, ih cs2 hrec]
      | clientErr code =>
        rw [hu] at h; dsimp only at h
        by_cases hc : code = "InternalError"
        · rw [if_pos hc] at h
          cases hrec : prepLoop env fs with
          | error o => rw [hrec] at h; exact absurd h (by simp [Except.map])
          | ok cs2 =>
            rw [hrec] at h
            simp only [Except.map] at h
            cases h
            rw [List.map_cons, ih cs2 hrec]
        · rw [if_neg hc] at h
          exact absurd h (by simp)
    · rw [if_neg hv] at h
      exact absurd h (by simp)

theorem prepLoop_error (env : PrepEnv) :
    ∀ ps o, prepLoop env ps = .error o → o = .raised false ∨ o = .exitZero := by
  intro ps
  induction ps with
  | nil =>
    intro o h
    simp only [prepLoop] at h
    exact absurd h (by simp)
  | cons f fs ih =>
    intro o h
    simp only [prepLoop] at h
    by_cases hv : env.vips f
    · rw [if_pos hv] at h
      cases hu : env.upload f with
      | ok =>
        rw [hu] at h; dsimp only at h
        cases hrec : prepLoop env fs with
        | error o2 =>
          rw [hrec] at h
          simp only [Except.map] at h
          cases h
          exact ih o hrec
        | ok cs2 => rw [hrec] at h; exact absurd h (by simp [Except.map])
      | clientErr code =>
        rw [hu] at h; dsimp only at h
        by_cases hc : code = "InternalError"
        · rw [if_pos hc] at h
          cases hrec : prepLoop env fs with
          | error o2 =>
            rw [hrec] at h
            simp only [Except.map] at h
            cases h
            exact ih o hrec
          | ok cs2 => rw [hrec] at h; exact absurd h (by simp [Except.map])
        · rw [if_neg hc] at h
          cases h
          exact Or.inl rfl
    · rw [if_neg hv] at h
      cases h
      exact Or.inr rfl

theorem dibsiiifMain_ok_canvases (env : IiifEnv) (m : Manifest)
    (paths : List String) (seq : List Nat)
    (hscan : scanDibsiiif env.barcode env.dir env.entries = some (paths, seq))
    (h : dibsiiifMain env = .ok m) :
    m.canvases = (pySortStrs paths).map (fun f =>
      mkCanvas env.canvasBase env.iiifBase env.barcode (pageNumOf f)
        (env.widthOf f) (env.heightOf f)) := by
  unfold dibsiiifMain at h
  rw [hscan] at h
  by_cases h1 : env.processingFree
  swap
  · simp [h1] at h
  by_cases h2 : env.dirOk
  swap
  · simp [h1, h2] at h
  by_cases h3 : env.entries.isEmpty
  · simp [h1, h2, h3] at h
  rw [if_neg (by simp [h1]), if_neg (by simp [h2]), if_neg (by simp [h3])] at h
  dsimp only at h
  by_cases h4 : paths.isEmpty
  · rw [if_pos h4] at h
    exact absurd h (by simp)
  rw [if_neg h4] at h
  cases h5 : missing_numbers seq with
  | none => rw [h5] at h; exact absurd h (by simp)
  | some miss =>
    rw [h5] at h
    cases miss with
    | cons x xs => exact absurd h (by simp)
    | nil =>
      dsimp only at h
      cases h6 : env.fields with
      | none => rw [h6] at h; exact absurd h (by simp)
      | some fs =>
        rw [h6] at h; dsimp only at h
        cases h7 : extractIiif fs with
        | error e => rw [h7] at h; exact absurd h (by simp)
        | ok meta =>
          rw [h7] at h; dsimp only at h
          cases h8 : iiifLoop env (pySortStrs paths) with
          | error o =>
            rw [h8] at h; dsimp only at h
            have ho := iiifLoop_error env _ o h8
            rw [ho] at h
            exact absurd h (by simp)
          | ok cs =>
            rw [h8] at h; dsimp only at h
            by_cases h9 : env.moveOk
            swap
            · simp [h9] at h
            rw [if_neg (by simp [h9])] at h
            cases h
            exact iiifLoop_ok env _ cs h8

theorem dibsprepMain_ok_canvases (env : PrepEnv) (m : Manifest)
    (paths : List String) (seq : List Nat)
    (hscan : scanDibsprep env.barcode env.dir env.entries = some (paths, seq))
    (h : dibsprepMain env = .ok m) :
    m.canvases = (pySortStrs paths).map (fun f =>
      mkCanvas env.canvasBase env.iiifBase env.barcode (pageNumOf f)
        (env.widthOf f) (env.heightOf f)) := by
  unfold dibsprepMain at h
  by_cases h0 : env.initiated
  swap
  · simp [h0] at h
  by_cases h1 : env.processingFree
  swap
  · simp [h0, h1] at h
  by_cases h2 : env.dirOk
  swap
  · simp [h0, h1, h2] at h
  by_cases h3 : env.entries.isEmpty
  · simp [h0, h1, h2, h3] at h
  rw [if_neg (by simp [h0]), if_neg (by simp [h1]), if_neg (by simp [h2]),
    if_neg (by simp [h3])] at h
  · rw [hscan] at h
    dsimp only at h
    by_cases h4 : paths.isEmpty
    · rw [if_pos h4] at h
      exact absurd h (by simp)
    rw [if_neg h4] at h
    cases h5 : missing_numbers seq with
    | none => rw [h5] at h; exact absurd h (by simp)
    | some miss =>
      rw [h5] at h
      cases miss with
      | cons x xs => exact absurd h (by simp)
      | nil =>
        dsimp only at h
        cases h6 : env.record with
        | none => rw [h6] at h; exact absurd h (by simp)
        | some r =>
          rw [h6] at h; dsimp only at h
          cases h7 : extractPrep r with
          | error e => rw [h7] at h; exact absurd h (by simp)
          | ok meta =>
            rw [h7] at h; dsimp only at h
            cases h8 : prepLoop env (pySortStrs paths) with
            | error o =>
              rw [h8] at h; dsimp only at h
              have ho := prepLoop_error env _ o h8
              rcases ho with ho | ho
              all_goals rw [ho] at h
              all_goals exact absurd h (by simp)
            | ok cs =>
              rw [h8] at h; dsimp only at h
              by_cases h9 : env.moveOk
              swap
              · simp [h9] at h
              rw [if_neg (by simp [h9])] at h
              cases h
              exact prepLoop_ok env _ cs h8

/-! ## Extraction lemmas -/

theorem iiifField_no245 (st : IiifMeta) (f : MarcField) (hs : shapeOk f = true)
    (h : f.tag ≠ "245") : ∃ st1, iiifField st f = .ok st1 ∧ st1.title = st.title := by
  unfold iiifField
  by_cases h8 : f.tag = "008"
  · rw [if_pos h8]
    unfold shapeOk at hs
    rw [if_pos h8] at hs
    cases hc : f.content with
    | obj d => exact ⟨_, rfl, rfl⟩
    | text s => rw [hc] at hs; exact absurd hs (by simp)
  · rw [if_neg h8, if_neg h]
    by_cases h250 : f.tag = "250"
    · rw [if_pos h250]
      cases hc : f.content with
      | text c => exact ⟨_, rfl, rfl⟩
      | obj d =>
        unfold shapeOk at hs
        rw [if_neg h8, if_pos (Or.inr h250), hc] at hs
        exact absurd hs (by simp)
    · rw [if_neg h250]
      exact ⟨st, rfl, rfl⟩

theorem extractFold_no245 :
    ∀ (fs : List MarcField) (st0 : IiifMeta), wellShaped fs = true →
      (∀ f ∈ fs, f.tag ≠ "245") →
      ∃ st, extractFold st0 fs = .ok st ∧ st.title = st0.title := by
  intro fs
  induction fs with
  | nil => intro st0 _ _; exact ⟨st0, rfl, rfl⟩
  | cons f fs ih =>
    intro st0 hshape h245
    have hpair : shapeOk f = true ∧ fs.all shapeOk = true := by
      unfold wellShaped at hshape
      rw [List.all_cons] at hshape
      simpa using hshape
    have hshape_f : shapeOk f = true := hpair.1
    have hshape_fs : wellShaped fs = true := hpair.2
    obtain ⟨st1, hst1, hty⟩ :=
      iiifField_no245 st0 f hshape_f (h245 f (List.mem_cons_self _ _))
    obtain ⟨st, hst, hty2⟩ :=
      ih st1 hshape_fs (fun g hg => h245 g (List.mem_cons_of_mem _ hg))
    refine ⟨st, ?_, hty2.trans hty⟩
    unfold extractFold
    rw [hst1]
    exact hst

theorem iiifField_year (st st1 : IiifMeta) (f : MarcField) (h : f.tag ≠ "008")
    (hstep : iiifField st f = .ok st1) : st1.year = st.year := by
  unfold iiifField at hstep
  rw [if_neg h] at hstep
  by_cases h245 : f.tag = "245"
  · rw [if_pos h245] at hstep
    cases hc : f.content with
    | obj d => rw [hc] at hstep; exact absurd hstep (by simp)
    | text c =>
      rw [hc] at hstep
      dsimp only at hstep
      by_cases ha : hasSub c "$a "
      · rw [if_neg (by simp [ha])] at hstep
        cases hcp : pyFind c "$c " with
        | some cp =>
          rw [hcp] at hstep
          cases hbp : pyFind c "$b " with
          | some bp =>
            rw [hbp] at hstep
            dsimp only at hstep
            cases hstep
            rfl
          | none =>
            rw [hbp] at hstep
            dsimp only at hstep
            cases hstep
            rfl
        | none =>
          rw [hcp] at hstep
          cases hbp : pyFind c "$b " with
          | some bp =>
            rw [hbp] at hstep
            dsimp only at hstep
            cases hstep
            rfl
          | none =>
            rw [hbp] at hstep
            dsimp only at hstep
            cases hstep
            rfl
      · rw [if_pos (by simp [ha])] at hstep
        exact absurd hstep (by simp)
  · rw [if_neg h245] at hstep
    by_cases h250 : f.tag = "250"
    · rw [if_pos h250] at hstep
      cases hc : f.content with
      | text c =>
        rw [hc] at hstep
        dsimp only at hstep
        cases hstep
        rfl
      | obj d => rw [hc] at hstep; exact absurd hstep (by simp)
    · rw [if_neg h250] at hstep
      cases hstep
      rfl

theorem extractFold_no008 :
    ∀ (fs : List MarcField) (st0 st : IiifMeta), (∀ f ∈ fs, f.tag ≠ "008") →
      extractFold st0 fs = .ok st → st.year = st0.year := by
  intro fs
  induction fs with
  | nil =>
    intro st0 st _ h
    simp only [extractFold] at h
    cases h
    rfl
  | cons f fs ih =>
    intro st0 st h8 h
    simp only [extractFold] at h
    cases hstep : iiifField st0 f with
    | error e => rw [hstep] at h; exact absurd h (by simp)
    | ok st1 =>
      rw [hstep] at h
      dsimp only at h
      have h1 := iiifField_year st0 st1 f (h8 f (List.mem_cons_self _ _)) hstep
      have h2 := ih st1 st (fun g hg => h8 g (List.mem_cons_of_mem _ hg)) h
      exact h2.trans h1

theorem all_dec_numeric (l : List Char) (h : l.all isDecDigitChar = true) :
    l.all isNumericChar = true := by
  rw [List.all_eq_true] at h ⊢
  intro c hc
  unfold isNumericChar
  rw [h c hc]
  rfl

theorem pyDecimalLit_eq (s : String) : pyDecimalLit s = (pyIsNumeric s && pyIntOk s) := by
  unfold pyDecimalLit pyIsNumeric pyIntOk
  cases he : s.data.isEmpty
  · cases hd : s.data.all isDecDigitChar
    · simp [hd]
    · rw [all_dec_numeric s.data hd]
      simp
  · simp

theorem ruleDibsprep_spec (b name : String) :
    acceptNum (ruleDibsprep b name) = specConventionFD b name := by
  unfold ruleDibsprep specConventionFD
  by_cases he : endsTiff name
  · rw [if_pos he, if_pos he]
    cases hp : splitUnder (firstDotPart name) with
    | nil => simp [hp, acceptNum]
    | cons a rest =>
      cases rest with
      | nil => simp [hp, acceptNum]
      | cons a2 rest2 =>
        cases rest2 with
        | nil =>
          by_cases h1 : a = b
          · by_cases h2 : pyIsNumeric a2 = true
            · by_cases h3 : pyIntOk a2 = true
              · simp [hp, acceptNum, h1, h2, h3, pyDecimalLit_eq]
              · rw [Bool.not_eq_true] at h3
                simp [hp, acceptNum, h1, h2, h3, pyDecimalLit_eq]
            · rw [Bool.not_eq_true] at h2
              simp [hp, acceptNum, h1, h2, pyDecimalLit_eq]
          · simp [hp, acceptNum, h1]
        | cons a3 rest3 =>
          cases rest3 with
          | nil =>
            by_cases h1 : a = b
            · by_cases h2 : a2 = "Page"
              · by_cases h3 : pyIsNumeric a3 = true
                · by_cases h4 : pyIntOk a3 = true
                  · simp [hp, acceptNum, h1, h2, h3, h4, pyDecimalLit_eq]
                  · rw [Bool.not_eq_true] at h4
                    simp [hp, acceptNum, h1, h2, h3, h4, pyDecimalLit_eq]
                · rw [Bool.not_eq_true] at h3
                  simp [hp, acceptNum, h1, h2, h3, pyDecimalLit_eq]
              · simp [hp, acceptNum, h1, h2]
            · simp [hp, acceptNum, h1]
          | cons a4 rest4 => simp [hp, acceptNum]
  · rw [if_neg he, if_neg he]
    simp [acceptNum]

theorem ruleDibsprep_crash (b name : String) :
    ruleDibsprep b name = .crash ↔
      (endsTiff name = true ∧ prepShape b name = true ∧
        pyIntOk ((splitUnder (firstDotPart name)).getLastD "") = false) := by
  unfold ruleDibsprep prepShape
  by_cases he : endsTiff name
  · rw [if_pos he]
    dsimp only
    generalize splitUnder (firstDotPart name) = parts
    generalize parts.length = n
    generalize parts.headD "" = h0
    generalize parts.getLastD "" = lastp
    generalize parts.getD 1 "" = p1
    by_cases hc1 : (n = 2 && h0 == b && pyIsNumeric lastp) = true
    · by_cases hio : pyIntOk lastp = true
      · simp [he, hc1, hio]
      · rw [Bool.not_eq_true] at hio
        simp [he, hc1, hio]
    · rw [Bool.not_eq_true] at hc1
      by_cases hc2 : (n = 3 && h0 == b && pyIsNumeric lastp && p1 == "Page") = true
      · by_cases hio : pyIntOk lastp = true
        · simp [he, hc1, hc2, hio]
        · rw [Bool.not_eq_true] at hio
          simp [he, hc1, hc2, hio]
      · rw [Bool.not_eq_true] at hc2
        simp [he, hc1, hc2]
  · rw [if_neg he]
    simp [he]

theorem ruleDibsiiif_spec (b name : String) :
    acceptNum (ruleDibsiiif b name) = iiifAcceptSpec b name := by
  unfold ruleDibsiiif iiifAcceptSpec
  by_cases he : endsTiff name
  · rw [if_pos he, if_pos he]
    cases hp : (splitUnder (firstDotPart name)).filter (fun p => !(p == "")) with
    | nil => simp [acceptNum]
    | cons p0 tl =>
      dsimp only
      generalize (p0 :: tl).getLastD "" = L
      by_cases h1 : p0 = b
      · by_cases h2 : pyIsNumeric L = true
        · by_cases h3 : pyIntOk L = true
          · simp [acceptNum, h1, h2, h3, pyDecimalLit_eq]
          · rw [Bool.not_eq_true] at h3
            simp [acceptNum, h1, h2, h3, pyDecimalLit_eq]
        · rw [Bool.not_eq_true] at h2
          simp [acceptNum, h1, h2, pyDecimalLit_eq]
      · simp [acceptNum, h1]
  · rw [if_neg he, if_neg he]
    simp [acceptNum]

theorem ruleDibsiiif_crash (b name : String) :
    ruleDibsiiif b name = .crash ↔
      (endsTiff name = true ∧
        ((splitUnder (firstDotPart name)).filter (fun p => !(p == "")) = [] ∨
          (∃ p0 tl,
            (splitUnder (firstDotPart name)).filter (fun p => !(p == "")) = p0 :: tl ∧
            p0 = b ∧
            pyIsNumeric ((p0 :: tl).getLastD "") = true ∧
            pyIntOk ((p0 :: tl).getLastD "") = false))) := by
  unfold ruleDibsiiif
  by_cases he : endsTiff name
  · rw [if_pos he]
    cases hp : (splitUnder (firstDotPart name)).filter (fun p => !(p == "")) with
    | nil => simp [he]
    | cons p0 tl =>
      dsimp only
      constructor
      · intro h
        refine ⟨he, Or.inr ⟨p0, tl, rfl, ?_⟩⟩
        by_cases h1 : (p0 == b) = true
        · rw [if_neg (by rw [h1]; simp)] at h
          by_cases h2 : pyIsNumeric ((p0 :: tl).getLastD "") = true
          · rw [if_neg (by rw [h2]; simp)] at h
            by_cases h3 : pyIntOk ((p0 :: tl).getLastD "") = true
            · rw [if_pos h3] at h
              exact absurd h (by simp)
            · rw [Bool.not_eq_true] at h3
              exact ⟨by simpa using h1, h2, h3⟩
          · rw [Bool.not_eq_true] at h2
            rw [if_pos (by rw [h2]; rfl)] at h
            exact absurd h (by simp)
        · rw [Bool.not_eq_true] at h1
          rw [if_pos (by rw [h1]; rfl)] at h
          exact absurd h (by simp)
      · rintro ⟨-, hor⟩
        rcases hor with hnil | ⟨q0, qtl, heq, hqb, hqn, hqi⟩
        · exact absurd hnil (List.cons_ne_nil p0 tl)
        · injection heq with e1 e2
          subst e1
          subst e2
          rw [if_neg (by rw [beq_iff_eq.mpr hqb]; simp),
            if_neg (by rw [hqn]; simp), if_neg (by rw [hqi]; simp)]
  · rw [if_neg he]
    simp [he]

/-! ## The claims -/

/-- C1: for every non-empty list S of parsed sequence numbers, the
missing-number check reports exactly the integers of [min(S), max(S)] absent
from S, in ascending order, and is empty exactly when there is no gap; and a
scan that completes returns as many paths as sequence numbers, so a gap-free
scan yields one entry per parsed file. -/
theorem C1_sequencing (s : List Nat) (hs : s ≠ []) :
    (∃ m, missing_numbers s = some m ∧
      List.Sorted (· < ·) m ∧
      (∀ n, n ∈ m ↔ (seqMin s ≤ n ∧ n ≤ seqMax s ∧ n ∉ s)) ∧
      (m = [] ↔ ∀ n, seqMin s ≤ n → n ≤ seqMax s → n ∈ s)) ∧
    (∀ b d es r, scanDibsprep b d es = some r → r.1.length = r.2.length) ∧
    (∀ b d es r, scanDibsiiif b d es = some r → r.1.length = r.2.length) :=
  ⟨missing_numbers_spec s hs,
   fun b d es r h => scanDibsprep_lengths b d es r h,
   fun b d es r h => scanDibsiiif_lengths b d es r h⟩

/-- C1 witness: the theorem applied to the concrete sequence [3, 1, 2]. -/
theorem C1_sequencing_witness :
    (∃ m, missing_numbers [3, 1, 2] = some m ∧
      List.Sorted (· < ·) m ∧
      (∀ n, n ∈ m ↔ (seqMin [3, 1, 2] ≤ n ∧ n ≤ seqMax [3, 1, 2] ∧ n ∉ ([3, 1, 2] : List Nat))) ∧
      (m = [] ↔ ∀ n, seqMin [3, 1, 2] ≤ n → n ≤ seqMax [3, 1, 2] → n ∈ ([3, 1, 2] : List Nat))) ∧
    (∀ b d es r, scanDibsprep b d es = some r → r.1.length = r.2.length) ∧
    (∀ b d es r, scanDibsiiif b d es = some r → r.1.length = r.2.length) :=
  C1_sequencing [3, 1, 2] (by decide)

/-- C2 counterexample: pages 9 and 10 are contiguous, the run completes, yet
the canvases appear in the order 10, 9 (lexicographic path order), which is
not ascending numeric order. -/
theorem C2_counterexample :
    (dibsiiifMain iiifEnvNine).isOk = true ∧
    (outManifest (dibsiiifMain iiifEnvNine)).canvases.map Canvas.label = ["10", "9"] ∧
    ascendingNums ((outManifest (dibsiiifMain iiifEnvNine)).canvases.map
      (fun c => toNatDigits c.label)) = false := by
  decide

/-- C2 (amended): every completed run emits exactly one canvas per accepted
page image, in ascending lexicographic order of the source file path — which
coincides with numeric order only when that order is numeric (e.g. uniformly
zero-padded names), not in general. -/
theorem C2_canvas_order :
    (∀ (env : IiifEnv) (m : Manifest) (paths : List String) (seq : List Nat),
      scanDibsiiif env.barcode env.dir env.entries = some (paths, seq) →
      dibsiiifMain env = .ok m →
      m.canvases = (pySortStrs paths).map (fun f =>
        mkCanvas env.canvasBase env.iiifBase env.barcode (pageNumOf f)
          (env.widthOf f) (env.heightOf f)) ∧
      m.canvases.map Canvas.label = (pySortStrs paths).map pageNumOf) ∧
    (∀ (env : PrepEnv) (m : Manifest) (paths : List String) (seq : List Nat),
      scanDibsprep env.barcode env.dir env.entries = some (paths, seq) →
      dibsprepMain env = .ok m →
      m.canvases = (pySortStrs paths).map (fun f =>
        mkCanvas env.canvasBase env.iiifBase env.barcode (pageNumOf f)
          (env.widthOf f) (env.heightOf f)) ∧
      m.canvases.map Canvas.label = (pySortStrs paths).map pageNumOf) := by
  constructor
  · intro env m paths seq hscan h
    have hc := dibsiiifMain_ok_canvases env m paths seq hscan h
    refine ⟨hc, ?_⟩
    rw [hc, List.map_map]
    rfl
  · intro env m paths seq hscan h
    have hc := dibsprepMain_ok_canvases env m paths seq hscan h
    refine ⟨hc, ?_⟩
    rw [hc, List.map_map]
    rfl

/-- C2 witness: the amended claim applied to the concrete 9/10 run. -/
theorem C2_canvas_order_witness :
    (outManifest (dibsiiifMain iiifEnvNine)).canvases
        = (pySortStrs ["u/b/b_9.tif", "u/b/b_10.tif"]).map (fun f =>
            mkCanvas iiifEnvNine.canvasBase iiifEnvNine.iiifBase iiifEnvNine.barcode
              (pageNumOf f) (iiifEnvNine.widthOf f) (iiifEnvNine.heightOf f)) ∧
    (outManifest (dibsiiifMain iiifEnvNine)).canvases.map Canvas.label
        = (pySortStrs ["u/b/b_9.tif", "u/b/b_10.tif"]).map pageNumOf :=
  C2_canvas_order.1 iiifEnvNine (outManifest (dibsiiifMain iiifEnvNine))
    ["u/b/b_9.tif", "u/b/b_10.tif"] [9, 10] (by decide) (by decide)

/-- C3 counterexample: dibsiiif.py accepts `b_x_7.tif`, which matches neither
of the two claimed conventions; and a convention-shaped name whose final part
is numeric but not decimal digits (the vulgar fraction one-half) makes both
scripts raise an uncaught ValueError in `int`, aborting the scan instead of
being skipped with a warning. -/
theorem C3_counterexample :
    ruleDibsiiif "b" "b_x_7.tif" = FileVerdict.accept 7 ∧
    specConventionNum "b" "b_x_7.tif" = none ∧
    ruleDibsprep "b" "b_½.tif" = FileVerdict.crash ∧
    scanDibsprep "b" "u" [⟨"b_½.tif", true⟩] = none := by
  decide

/-- C3 (amended): dibsprep.py accepts exactly the two conventions read over
the name truncated at its first dot, with the final part a decimal integer
literal (any Unicode decimal digits, so Arabic-Indic digits are accepted);
dibsiiif.py accepts any name whose non-empty underscore-parts start with the
barcode and end with such a literal.  A convention-shaped name whose final
part is numeric without being decimal digits aborts either script with an
uncaught ValueError from `int`, and dibsiiif.py additionally aborts with an
IndexError on a recognized-extension name with no non-empty parts. -/
theorem C3_acceptance :
    (∀ b name, acceptNum (ruleDibsprep b name) = specConventionFD b name) ∧
    (∀ b name, ruleDibsprep b name = .crash ↔
      (endsTiff name = true ∧ prepShape b name = true ∧
        pyIntOk ((splitUnder (firstDotPart name)).getLastD "") = false)) ∧
    (∀ b name, acceptNum (ruleDibsiiif b name) = iiifAcceptSpec b name) ∧
    (∀ b name, ruleDibsiiif b name = .crash ↔
      (endsTiff name = true ∧
        ((splitUnder (firstDotPart name)).filter (fun p => !(p == "")) = [] ∨
          (∃ p0 tl,
            (splitUnder (firstDotPart name)).filter (fun p => !(p == "")) = p0 :: tl ∧
            p0 = b ∧
            pyIsNumeric ((p0 :: tl).getLastD "") = true ∧
            pyIntOk ((p0 :: tl).getLastD "") = false)))) :=
  ⟨ruleDibsprep_spec, ruleDibsprep_crash, ruleDibsiiif_spec, ruleDibsiiif_crash⟩

/-- C3 witness: the amended claim evaluated on concrete names, including a
non-ASCII decimal digit and a non-decimal numeric. -/
theorem C3_acceptance_witness :
    acceptNum (ruleDibsprep "b" "b_Page_07.tif") = specConventionFD "b" "b_Page_07.tif" ∧
    acceptNum (ruleDibsprep "b" "b_٣.tif") = specConventionFD "b" "b_٣.tif" ∧
    ruleDibsprep "b" "b_½.tif" = .crash ∧
    acceptNum (ruleDibsiiif "b" "b_x_7.tif") = iiifAcceptSpec "b" "b_x_7.tif" ∧
    ruleDibsiiif "b" "_.tif" = .crash :=
  ⟨C3_acceptance.1 "b" "b_Page_07.tif",
   C3_acceptance.1 "b" "b_٣.tif",
   (C3_acceptance.2.1 "b" "b_½.tif").mpr (by decide),
   C3_acceptance.2.2.1 "b" "b_x_7.tif",
   (C3_acceptance.2.2.2 "b" "_.tif").mpr ⟨by decide, Or.inl (by decide)⟩⟩

/-- C4 counterexample: with no tag-245 field at all, the dibsiiif.py run
completes and writes a manifest whose label is the empty string. -/
theorem C4_counterexample :
    (dibsiiifMain iiifEnvNo245).isOk = true ∧
    (outManifest (dibsiiifMain iiifEnvNo245)).label = "" := by
  decide

/-- C4 (amended): dibsprep.py does fail when subfield 245$a is absent, but
dibsiiif.py raises its title error only when a 245 field is present without a
`$a ` marker: a record with no 245 field extracts successfully with an empty
title, and the pipeline proceeds to build a manifest with an empty label. -/
theorem C4_title_mandatory :
    (∀ fs, wellShaped fs = true → (∀ f ∈ fs, f.tag ≠ "245") →
      ∃ st, extractIiif fs = .ok st ∧ st.title = "") ∧
    (∀ r, selectSub r "245" "a" = [] → extractPrep r = .error "title tag was empty") := by
  constructor
  · intro fs hshape h245
    exact extractFold_no245 fs _ hshape h245
  · intro r h
    unfold extractPrep
    rw [h]

/-- C4 witness: the amended claim applied to concrete records. -/
theorem C4_title_mandatory_witness :
    (∃ st, extractIiif [⟨"100", .text "x"⟩] = .ok st ∧ st.title = "") ∧
    extractPrep [.data "100" [("a", "y")]] = .error "title tag was empty" :=
  ⟨C4_title_mandatory.1 [⟨"100", .text "x"⟩] (by decide) (by decide),
   C4_title_mandatory.2 [.data "100" [("a", "y")]] (by decide)⟩

/-- C5 counterexample: on the record `$a Main Title / $b A Subtitle / $c
Author Name`, the dibsprep.py manifest's top-level label is "Main Title", not
the claimed "Main Title: A Subtitle" (the join lives only in the Title
metadata value). -/
theorem C5_counterexample :
    (dibsprepMain prepEnvBase).isOk = true ∧
    (outManifest (dibsprepMain prepEnvBase)).label = "Main Title" ∧
    ((outManifest (dibsprepMain prepEnvBase)).metadata.headD ⟨"", ""⟩).value
      = "Main Title: A Subtitle" ∧
    (outManifest (dibsprepMain prepEnvBase)).label ≠ "Main Title: A Subtitle" := by
  decide

/-- C5 (amended): in dibsprep.py the Title metadata value is the trimmed $a
joined to the trimmed $b with a colon-space, while the extracted title — the
manifest's top-level label — is the trimmed $a alone; in dibsiiif.py the
`$b ` marker is deleted in place, keeping the record's own separator, with no
colon-space join. -/
theorem C5_subtitle_join :
    (∀ (r : List TindField) (ta tb : String) (ra rb : List String),
      selectSub r "245" "a" = ta :: ra → selectSub r "245" "b" = tb :: rb →
      (∃ t8 r8, selectTag r "008" = t8 :: r8) →
      ∃ st, extractPrep r = .ok st ∧ st.title = pyStrip ta ∧
        st.subtitle = ": " ++ pyStrip tb ∧
        (prepMetaList st).headD ⟨"", ""⟩ = ⟨"Title", pyStrip ta ++ ": " ++ pyStrip tb⟩) ∧
    extractIiif [⟨"245", .text "$a Main Title / $b A Subtitle / $c Author Name"⟩]
      = .ok ⟨"Main Title / A Subtitle", "Author Name", "", ""⟩ := by
  constructor
  · intro r ta tb ra rb ha hb h8
    obtain ⟨t8, r8, h8⟩ := h8
    unfold extractPrep
    rw [ha, h8, hb]
    refine ⟨_, rfl, rfl, rfl, ?_⟩
    simp [prepMetaList, String.append_assoc]
  · decide

/-- C5 witness: the amended claim applied to the record of the spec's
subtitle example. -/
theorem C5_subtitle_join_witness :
    ∃ st, extractPrep recMain = .ok st ∧ st.title = pyStrip "Main Title /" ∧
      st.subtitle = ": " ++ pyStrip "A Subtitle /" ∧
      (prepMetaList st).headD ⟨"", ""⟩
        = ⟨"Title", pyStrip "Main Title /" ++ ": " ++ pyStrip "A Subtitle /"⟩ :=
  C5_subtitle_join.1 recMain "Main Title /" "A Subtitle /" [] [] (by decide) (by decide)
    ⟨"120118s2012xxxx", [], by decide⟩

/-- C6 counterexample: `b_01.tif` and `b_1.tif` both parse to sequence number
1; both pairs appear in the output, the gap check passes, and the sequence
numbers are not unique. -/
theorem C6_counterexample :
    scanDibsprep "b" "u" [⟨"b_01.tif", true⟩, ⟨"b_1.tif", true⟩]
      = some (["u/b_01.tif", "u/b_1.tif"], [1, 1]) ∧
    missing_numbers [1, 1] = some [] ∧
    ¬ (([1, 1] : List Nat).Nodup) := by
  decide

/-- C6 (amended): the sequencer is not deduplicated — whenever the scan
completes it emits exactly one (path, number) pair per accepted file in scan
order, so distinct files that parse to the same sequence number all appear,
and dibsiiif.py behaves the same way. -/
theorem C6_no_dedup :
    (∀ b d es, (∀ e ∈ es, e.isFile = true → ruleDibsprep b e.name ≠ .crash) →
      scanDibsprep b d es =
      some (es.filterMap (fun e => if e.isFile then
          (acceptNum (ruleDibsprep b e.name)).map (fun _ => d ++ "/" ++ e.name) else none),
        es.filterMap (fun e => if e.isFile then acceptNum (ruleDibsprep b e.name) else none))) ∧
    scanDibsiiif "b" "u" [⟨"b_01.tif", true⟩, ⟨"b_1.tif", true⟩]
      = some (["u/b_01.tif", "u/b_1.tif"], [1, 1]) :=
  ⟨scanDibsprep_eq, by decide⟩

/-- C6 witness: the amended claim applied to the duplicate-number listing. -/
theorem C6_no_dedup_witness :
    scanDibsprep "b" "u" [⟨"b_01.tif", true⟩, ⟨"b_1.tif", true⟩]
      = some (([⟨"b_01.tif", true⟩, ⟨"b_1.tif", true⟩] : List ScanEntry).filterMap
          (fun e => if e.isFile then
            (acceptNum (ruleDibsprep "b" e.name)).map (fun _ => "u" ++ "/" ++ e.name) else none),
        ([⟨"b_01.tif", true⟩, ⟨"b_1.tif", true⟩] : List ScanEntry).filterMap
          (fun e => if e.isFile then acceptNum (ruleDibsprep "b" e.name) else none)) :=
  C6_no_dedup.1 "b" "u" [⟨"b_01.tif", true⟩, ⟨"b_1.tif", true⟩] (by decide)

/-- C7 counterexample: a record with a 245$a title but no 008 field makes
dibsprep.py extraction fail (unguarded `tag008[0]`) instead of succeeding
with an empty year. -/
theorem C7_counterexample :
    extractPrep [.data "245" [("a", "T")]]
      = .error "IndexError: list index out of range" := by
  decide

/-- C7 (amended): in dibsprep.py the year is characters 7 to 11 of the first
008 field's content and an absent 008 aborts extraction with an IndexError;
in dibsiiif.py an absent 008 leaves the year empty while extraction succeeds,
and a present Date1 value becomes the year. -/
theorem C7_year_extraction :
    (∀ (r : List TindField) (ta : String) (ra : List String),
      selectSub r "245" "a" = ta :: ra → selectTag r "008" = [] →
      extractPrep r = .error "IndexError: list index out of range") ∧
    (∀ (r : List TindField) (ta t8 : String) (ra r8 : List String),
      selectSub r "245" "a" = ta :: ra → selectTag r "008" = t8 :: r8 →
      ∃ st, extractPrep r = .ok st ∧ st.year = pySlice t8 7 11) ∧
    (∀ fs st, (∀ f ∈ fs, f.tag ≠ "008") → extractIiif fs = .ok st → st.year = "") ∧
    extractIiif [⟨"008", .obj (some "2012")⟩] = .ok ⟨"", "", "", "2012"⟩ := by
  refine ⟨?_, ?_, ?_, by decide⟩
  · intro r ta ra ha h8
    unfold extractPrep
    rw [ha, h8]
  · intro r ta t8 ra r8 ha h8
    unfold extractPrep
    rw [ha, h8]
    exact ⟨_, rfl, rfl⟩
  · intro fs st h8 h
    exact extractFold_no008 fs _ st h8 h

/-- C7 witness: the amended claim applied to concrete records. -/
theorem C7_year_extraction_witness :
    extractPrep [.data "245" [("a", "T")]]
        = .error "IndexError: list index out of range" ∧
    (∃ st, extractPrep recMain = .ok st ∧ st.year = pySlice "120118s2012xxxx" 7 11) ∧
    (∃ st2, extractIiif [⟨"100", .text "x"⟩] = .ok st2 ∧ st2.year = "") :=
  ⟨C7_year_extraction.1 [.data "245" [("a", "T")]] "T" [] (by decide) (by decide),
   C7_year_extraction.2.1 recMain "Main Title /" "120118s2012xxxx" [] [] (by decide) (by decide),
   by
     obtain ⟨st, hst, _, _, hy⟩ : ∃ st, extractIiif [⟨"100", .text "x"⟩] = .ok st ∧
         st.title = "" ∧ True ∧ st.year = st.year := ⟨_, rfl, rfl, trivial, rfl⟩
     exact ⟨st, hst, C7_year_extraction.2.2.1 [⟨"100", .text "x"⟩] st (by decide) hst⟩⟩

/-- C8 counterexample: a vips conversion failure in dibsprep.py calls
`sys.exit()` with no argument — the process stops with exit status zero and
no problem marker is written, contradicting write-trace-then-exit-non-zero. -/
theorem C8_counterexample :
    dibsprepMain (prepEnvVipsFail fun _ => .ok) = RunOutcome.exitZero := by
  decide

/-- C8 (amended): stage failures caught by a stage try-block (here: a gapped
sequence) write the problem trace and re-raise, but a conversion failure does
not — dibsiiif.py raises without writing the problem marker (non-zero exit,
no trace), and dibsprep.py exits with status zero. -/
theorem C8_failure_policy :
    (∀ (v : String → Bool) (u : String → UploadOutcome),
      dibsiiifMain (iiifEnvGap v u) = .raised true) ∧
    (∀ (v : String → Bool) (u : String → UploadOutcome),
      dibsprepMain (prepEnvGap v u) = .raised true) ∧
    (∀ u : String → UploadOutcome, dibsiiifMain (iiifEnvVipsFail u) = .raised false) ∧
    (∀ u : String → UploadOutcome, dibsprepMain (prepEnvVipsFail u) = .exitZero) :=
  ⟨fun _ _ => rfl, fun _ _ => rfl, fun _ => rfl, fun _ => rfl⟩

/-- C9 counterexample: with no initiated marker present, dibsprep.py aborts
with a problem trace, while the same environment with the marker succeeds —
the two runs are not identical. -/
theorem C9_counterexample :
    dibsprepMain prepEnvNoInitiated = RunOutcome.raised true ∧
    dibsprepMain prepEnvBase ≠ dibsprepMain prepEnvNoInitiated := by
  decide

/-- C9 (amended): dibsiiif.py removes the initiated marker with
`missing_ok=True`, so its presence never affects the run; dibsprep.py unlinks
it strictly, so its absence writes the problem marker and aborts. -/
theorem C9_initiated_marker :
    (∀ (env : IiifEnv) (b : Bool),
      dibsiiifMain { env with initiated := b } = dibsiiifMain env) ∧
    (∀ env : PrepEnv, env.initiated = false → dibsprepMain env = .raised true) := by
  constructor
  · exact dibsiiifMain_initiated
  · intro env h
    unfold dibsprepMain
    rw [h]
    rfl

/-- C9 witness: the amended claim applied to concrete environments. -/
theorem C9_initiated_marker_witness :
    dibsiiifMain { iiifEnvBase with initiated := false } = dibsiiifMain iiifEnvBase ∧
    dibsprepMain prepEnvNoInitiated = .raised true :=
  ⟨C9_initiated_marker.1 iiifEnvBase false, C9_initiated_marker.2 prepEnvNoInitiated rfl⟩

/-- C10: when every upload either succeeds or fails with the swallowed
InternalError code, the run outcome — in particular the manifest, with every
canvas appended — is identical to the run in which every upload succeeds:
manifest content is independent of swallowed upload failures. -/
theorem C10_upload_swallow :
    (∀ env : IiifEnv,
      (∀ f, env.upload f = .ok ∨ env.upload f = .clientErr "InternalError") →
      dibsiiifMain env = dibsiiifMain { env with upload := fun _ => .ok }) ∧
    (∀ env : PrepEnv,
      (∀ f, env.upload f = .ok ∨ env.upload f = .clientErr "InternalError") →
      dibsprepMain env = dibsprepMain { env with upload := fun _ => .ok }) := by
  constructor
  · intro env h
    unfold dibsiiifMain
    dsimp only
    simp only [iiifLoop_swallow env h]
  · intro env h
    unfold dibsprepMain
    dsimp only
    simp only [prepLoop_swallow env h]

/-- C10 witness: an all-InternalError run produces the same outcome as the
all-success run. -/
theorem C10_upload_swallow_witness :
    dibsiiifMain iiifEnvInternalErr
        = dibsiiifMain { iiifEnvInternalErr with upload := fun _ => .ok } ∧
    dibsprepMain prepEnvInternalErr
        = dibsprepMain { prepEnvInternalErr with upload := fun _ => .ok } :=
  ⟨C10_upload_swallow.1 iiifEnvInternalErr (fun _ => Or.inr rfl),
   C10_upload_swallow.2 prepEnvInternalErr (fun _ => Or.inr rfl)⟩

end Dibs
